import Mathlib

/-!
# Verification of the bazaar-app core logic

Shallow embedding of the pure data-transformation core of the bazaar-app
repository: the filter engine (`applyFilters`, `uniqueTags`, `uniqueSizes`,
`uniqueHeroes` from `FilterPanel.tsx`), the pagination deriver
(`paginationData` from `App.tsx`), the page-window helper (`getPageNumbers`
from `Pagination.tsx`) and the fetch/search layer (`fetchItems`,
`searchItems`, `mockItems` from `services/api.ts` and its non-fallback
variant), together with theorems settling the specification's claims.
-/

namespace BazaarApp

/-- A tier level with its tooltips (`types.ts`, `Tier`). -/
structure Tier where
  tooltips : List String
deriving DecidableEq

/-- All tier levels for items (`types.ts`, `Tiers`). -/
structure Tiers where
  Bronze : Tier
  Silver : Tier
  Gold : Tier
  Diamond : Tier
  Legendary : Tier
deriving DecidableEq

/-- An enchantment applicable to an item (`types.ts`, `Enchantment`). -/
structure Enchantment where
  type : String
  tooltips : List String
deriving DecidableEq

/-- A combat encounter where an item can be found (`types.ts`, `CombatEncounter`). -/
structure CombatEncounter where
  cardId : String
  cardName : String
deriving DecidableEq

/-- A complete item in The Bazaar (`types.ts`, `BazaarItem`). -/
structure BazaarItem where
  id : String
  name : String
  startingTier : String
  tiers : Tiers
  tags : List String
  hiddenTags : List String
  size : String
  heroes : List String
  enchantments : List Enchantment
  unifiedTooltips : List String
  remarks : List String
  packId : String
  combatEncounters : List CombatEncounter
deriving DecidableEq

/-- The JSON envelope returned by the upstream API (`types.ts`, `ApiResponse`). -/
structure ApiResponse where
  data : List BazaarItem
  version : String
deriving DecidableEq

/-- Embedding of JavaScript `s.includes(pat)`: `pat` occurs as a contiguous
substring of `s` (infix of the character list). -/
def strContains (s pat : String) : Bool :=
  decide (pat.data <:+: s.data)

/-- The filter criteria held by the `FilterPanel` component's state:
search query, selected tags, selected sizes, selected heroes. -/
structure FilterCriteria where
  searchQuery : String
  selectedTags : List String
  selectedSizes : List String
  selectedHeroes : List String

/-- The search-query predicate from `applyFilters` (`FilterPanel.tsx`):
`item.name.toLowerCase().includes(query) || item.tags.some(tag =>
tag.toLowerCase().includes(query)) || item.heroes.some(hero =>
hero.toLowerCase().includes(query))`, where `query` is the lower-cased
search query. -/
def matchesSearch (query : String) (item : BazaarItem) : Bool :=
  strContains item.name.toLower query ||
  item.tags.any (fun tag => strContains tag.toLower query) ||
  item.heroes.any (fun hero => strContains hero.toLower query)

/-- Embedding of `applyFilters` (`FilterPanel.tsx`, lines 47-89): starting
from a copy of `items`, successively narrow by search query (when the query
string is truthy, i.e. non-empty), selected tags, selected sizes and
selected heroes (each only when the selection is non-empty). -/
def applyFilters (items : List BazaarItem) (c : FilterCriteria) : List BazaarItem :=
  let filtered := items
  let filtered :=
    if c.searchQuery ≠ "" then
      let query := c.searchQuery.toLower
      filtered.filter (fun item => matchesSearch query item)
    else filtered
  let filtered :=
    if c.selectedTags.length > 0 then
      filtered.filter (fun item => c.selectedTags.any (fun tag => item.tags.contains tag))
    else filtered
  let filtered :=
    if c.selectedSizes.length > 0 then
      filtered.filter (fun item => c.selectedSizes.contains item.size)
    else filtered
  let filtered :=
    if c.selectedHeroes.length > 0 then
      filtered.filter (fun item => c.selectedHeroes.any (fun hero => item.heroes.contains hero))
    else filtered
  filtered

/-- Embedding of `Array.from(new Set(xs))` for string lists: keep the first
occurrence of each value, in insertion order. -/
def setDedup (l : List String) : List String :=
  l.foldl (fun acc a => if a ∈ acc then acc else acc ++ [a]) []

/-- Embedding of JavaScript `xs.sort()` on string arrays: sort ascending by
the lexicographic string order. -/
def sortStrings (l : List String) : List String :=
  l.mergeSort (fun a b => a ≤ b)

/-- `uniqueTags` (`FilterPanel.tsx`, line 39):
`Array.from(new Set(items.flatMap(item => item.tags))).sort()`. -/
def uniqueTags (items : List BazaarItem) : List String :=
  sortStrings (setDedup (items.flatMap (fun item => item.tags)))

/-- `uniqueSizes` (`FilterPanel.tsx`, line 40):
`Array.from(new Set(items.map(item => item.size))).sort()`. -/
def uniqueSizes (items : List BazaarItem) : List String :=
  sortStrings (setDedup (items.map (fun item => item.size)))

/-- `uniqueHeroes` (`FilterPanel.tsx`, line 41):
`Array.from(new Set(items.flatMap(item => item.heroes))).sort()`. -/
def uniqueHeroes (items : List BazaarItem) : List String :=
  sortStrings (setDedup (items.flatMap (fun item => item.heroes)))

/-- Result of the pagination derivation (`App.tsx`, `paginationData`). -/
structure PaginationData where
  totalPages : Int
  validPage : Int
  visibleItems : List BazaarItem
deriving DecidableEq

/-- Embedding of JavaScript `l.slice(s, e)` in the regime used by the code,
where both indices are non-negative: the elements at indices
`s ≤ i < e` (empty when `e ≤ s` or `s` is past the end). -/
def jsSlice (l : List BazaarItem) (s e : Int) : List BazaarItem :=
  (l.drop s.toNat).take (e - s).toNat

/-- Embedding of the `paginationData` memo (`App.tsx`, lines 90-111):
`totalPages = Math.max(1, Math.ceil(filteredItems.length / itemsPerPage))`,
`validPage = Math.max(1, Math.min(currentPage, totalPages))`,
`startIndex = (validPage - 1) * itemsPerPage`,
`endIndex = Math.min(startIndex + itemsPerPage, filteredItems.length)`,
`visibleItems = filteredItems.slice(startIndex, endIndex)`. -/
def paginationData (filteredItems : List BazaarItem) (currentPage itemsPerPage : Int) :
    PaginationData :=
  let totalPages := max 1 ⌈(filteredItems.length : ℚ) / (itemsPerPage : ℚ)⌉
  let validPage := max 1 (min currentPage totalPages)
  let startIndex := (validPage - 1) * itemsPerPage
  let endIndex := min (startIndex + itemsPerPage) (filteredItems.length : Int)
  let visibleItems := jsSlice filteredItems startIndex endIndex
  ⟨totalPages, validPage, visibleItems⟩

/-- The contiguous integer range `[s, e]` as a list, ascending; empty when
`e < s`.  Embedding of `for (let i = startPage; i <= endPage; i++) pages.push(i)`. -/
def intRange (s e : Int) : List Int :=
  (List.range (e + 1 - s).toNat).map (fun i : Nat => s + (i : Int))

/-- Embedding of `getPageNumbers` (`Pagination.tsx`, lines 42-59): a window
of at most 5 page numbers around `currentPage`, clamped to `[1, totalPages]`,
re-anchored at the end so that 5 buttons show whenever possible. -/
def getPageNumbers (currentPage totalPages : Int) : List Int :=
  let maxPages : Int := 5
  let startPage := max 1 (currentPage - maxPages / 2)
  let endPage := min totalPages (startPage + maxPages - 1)
  let startPage :=
    if endPage - startPage + 1 < maxPages then max 1 (endPage - maxPages + 1) else startPage
  intRange startPage endPage

/-- Outcome of the external HTTP fetch, as seen by `fetchItems`: a parsed
successful response, a non-ok HTTP response (status plus body text), or a
thrown network/parse failure with its message. -/
inductive FetchOutcome where
  | success (response : ApiResponse)
  | httpError (status : Nat) (body : String)
  | networkFailure (message : String)
deriving DecidableEq

/-- The hardcoded `mockItems` sample collection (`services/api.ts`). -/
def mockItems : List BazaarItem :=
  [{ id := "12345", name := "Shovel", startingTier := "Bronze",
     tiers :=
      { Bronze := ⟨["Cooldown 6 seconds", "Deal 40 damage."]⟩,
        Silver := ⟨["Cooldown 6 seconds", "Deal 60 damage."]⟩,
        Gold := ⟨["Cooldown 6 seconds", "Deal 80 damage."]⟩,
        Diamond := ⟨["Cooldown 6 seconds", "Deal 100 damage."]⟩,
        Legendary := ⟨[]⟩ },
     tags := ["Weapon"], hiddenTags := ["Damage"], size := "Medium", heroes := ["Common"],
     enchantments :=
      [⟨"Shiny", ["This has +1 Multicast."]⟩, ⟨"Deadly", ["+50% Crit Chance"]⟩,
       ⟨"Obsidian", ["This has double Damage."]⟩],
     unifiedTooltips := ["Cooldown 6 seconds", "Deal (40/60/80/100) damage."],
     remarks := [], packId := "Core", combatEncounters := [] },
   { id := "12346", name := "Trebuchet", startingTier := "Bronze",
     tiers :=
      { Bronze := ⟨["Cooldown 8 seconds", "Deal 40 damage.", "Burn 4."]⟩,
        Silver := ⟨["Cooldown 8 seconds", "Deal 60 damage.", "Burn 6."]⟩,
        Gold := ⟨["Cooldown 8 seconds", "Deal 80 damage.", "Burn 8."]⟩,
        Diamond := ⟨["Cooldown 8 seconds", "Deal 100 damage.", "Burn 10."]⟩,
        Legendary := ⟨[]⟩ },
     tags := ["Weapon"], hiddenTags := ["Damage", "Burn"], size := "Large",
     heroes := ["Common"],
     enchantments :=
      [⟨"Shiny", ["This has +1 Multicast."]⟩, ⟨"Fiery", ["This has double Burn."]⟩,
       ⟨"Obsidian", ["This has double Damage."]⟩],
     unifiedTooltips :=
      ["Cooldown 8 seconds", "Deal (40/60/80/100) damage.", "Burn (4/6/8/10)."],
     remarks := [], packId := "Core", combatEncounters := [] },
   { id := "12347", name := "Pet Rock", startingTier := "Bronze",
     tiers :=
      { Bronze := ⟨["Cooldown 4 seconds", "Deal 8 damage.",
          "If this is your only Friend, your items have +10% Crit Chance."]⟩,
        Silver := ⟨["Cooldown 4 seconds", "Deal 16 damage.",
          "If this is your only Friend, your items have +15% Crit Chance."]⟩,
        Gold := ⟨["Cooldown 4 seconds", "Deal 24 damage.",
          "If this is your only Friend, your items have +20% Crit Chance."]⟩,
        Diamond := ⟨["Cooldown 4 seconds", "Deal 32 damage.",
          "If this is your only Friend, your items have +25% Crit Chance."]⟩,
        Legendary := ⟨[]⟩ },
     tags := ["Weapon", "Toy", "Friend"], hiddenTags := ["Damage", "Crit"],
     size := "Small", heroes := ["Pygmalien"],
     enchantments :=
      [⟨"Shiny", ["This has +1 Multicast."]⟩, ⟨"Deadly", ["+50% Crit Chance"]⟩],
     unifiedTooltips :=
      ["Cooldown 4 seconds", "Deal (8/16/24/32) damage.",
       "If this is your only Friend, your items have +(10/15/20/25)% Crit Chance."],
     remarks := [], packId := "Pygmalien_Core", combatEncounters := [] },
   { id := "12348", name := "Bolas", startingTier := "Bronze",
     tiers :=
      { Bronze := ⟨["Cooldown 5 seconds", "Deal 40 damage."]⟩,
        Silver := ⟨["Cooldown 5 seconds", "Deal 60 damage."]⟩,
        Gold := ⟨["Cooldown 5 seconds", "Deal 80 damage."]⟩,
        Diamond := ⟨["Cooldown 5 seconds", "Deal 100 damage."]⟩,
        Legendary := ⟨[]⟩ },
     tags := ["Weapon"], hiddenTags := ["Damage", "Slow"], size := "Medium",
     heroes := ["Common"],
     enchantments :=
      [⟨"Heavy", ["Slow 1 item for 2 seconds."]⟩, ⟨"Shiny", ["This has +1 Multicast."]⟩,
       ⟨"Obsidian", ["This has double Damage."]⟩],
     unifiedTooltips := ["Cooldown 5 seconds", "Deal (40/60/80/100) damage."],
     remarks := [], packId := "Core", combatEncounters := [] },
   { id := "12349", name := "Double Barrel", startingTier := "Bronze",
     tiers :=
      { Bronze := ⟨["Cooldown 4 seconds", "Ammo Max: 2", "Deal 25 damage."]⟩,
        Silver := ⟨["Cooldown 4 seconds", "Ammo Max: 2", "Deal 50 damage."]⟩,
        Gold := ⟨["Cooldown 4 seconds", "Ammo Max: 2", "Deal 75 damage."]⟩,
        Diamond := ⟨["Cooldown 4 seconds", "Ammo Max: 2", "Deal 100 damage."]⟩,
        Legendary := ⟨[]⟩ },
     tags := ["Weapon", "Ammo"], hiddenTags := ["Damage"], size := "Medium",
     heroes := ["Common"],
     enchantments :=
      [⟨"Shiny", ["This has +1 Multicast."]⟩, ⟨"Deadly", ["+50% Crit Chance"]⟩],
     unifiedTooltips := ["Cooldown 4 seconds", "Ammo Max: 2", "Deal (25/50/75/100) damage."],
     remarks := [], packId := "Core", combatEncounters := [] },
   { id := "12350", name := "Rifle", startingTier := "Bronze",
     tiers :=
      { Bronze := ⟨["Cooldown 3 seconds", "Ammo Max: 3", "Deal 6 damage."]⟩,
        Silver := ⟨["Cooldown 3 seconds", "Ammo Max: 3", "Deal 12 damage."]⟩,
        Gold := ⟨["Cooldown 3 seconds", "Ammo Max: 3", "Deal 18 damage."]⟩,
        Diamond := ⟨["Cooldown 3 seconds", "Ammo Max: 3", "Deal 24 damage."]⟩,
        Legendary := ⟨[]⟩ },
     tags := ["Weapon", "Ammo"], hiddenTags := ["Damage"], size := "Medium",
     heroes := ["Common"],
     enchantments :=
      [⟨"Shiny", ["This has +1 Multicast."]⟩, ⟨"Deadly", ["+50% Crit Chance"]⟩],
     unifiedTooltips := ["Cooldown 3 seconds", "Ammo Max: 3", "Deal (6/12/18/24) damage."],
     remarks := [], packId := "Core", combatEncounters := [] },
   { id := "12351", name := "Chum", startingTier := "Bronze",
     tiers :=
      { Bronze := ⟨["Your Aquatic items have +4% Crit chance for the fight."]⟩,
        Silver := ⟨["Your Aquatic items have +6% Crit chance for the fight."]⟩,
        Gold := ⟨["Your Aquatic items have +8% Crit chance for the fight."]⟩,
        Diamond := ⟨["Your Aquatic items have +10% Crit chance for the fight."]⟩,
        Legendary := ⟨[]⟩ },
     tags := ["Aquatic"], hiddenTags := ["Crit"], size := "Small", heroes := ["Vanessa"],
     enchantments := [⟨"Deadly", ["Your items have +20% Crit Chance."]⟩],
     unifiedTooltips := ["Your Aquatic items have +(4/6/8/10)% Crit chance for the fight."],
     remarks := [], packId := "Vanessa_Core", combatEncounters := [] }]

/-- Embedding of `fetchItems` in the fallback variant (`src/services/api.ts`):
on a successful response return the envelope's `data` array; on a non-ok
response or a thrown error return `mockItems` instead of failing. -/
def fetchItems (outcome : FetchOutcome) : List BazaarItem :=
  match outcome with
  | .success response => response.data
  | .httpError _ _ => mockItems
  | .networkFailure _ => mockItems

/-- Embedding of `fetchItems` in the non-fallback variant (the alternative
`services/api.ts`): on a non-ok response it throws ``API error: ${status}``,
which its own catch block rewraps; on any thrown error it rethrows
``Error fetching API data: ${message}``; on success it returns `data`. -/
def fetchItemsStrict (outcome : FetchOutcome) : Except String (List BazaarItem) :=
  match outcome with
  | .success response => .ok response.data
  | .httpError status _ =>
      .error ("Error fetching API data: " ++ ("API error: " ++ toString status))
  | .networkFailure message => .error ("Error fetching API data: " ++ message)

/-- Embedding of `searchItems` (`services/api.ts`, fallback variant): fetch
the items, return them unchanged for a falsy (empty) query, otherwise keep
the items whose lower-cased name, some lower-cased tag, lower-cased size, or
some lower-cased hero contains the lower-cased query. -/
def searchItems (outcome : FetchOutcome) (query : String) : List BazaarItem :=
  let items := fetchItems outcome
  if query = "" then items
  else
    let lowerCaseQuery := query.toLower
    items.filter (fun item =>
      strContains item.name.toLower lowerCaseQuery ||
      item.tags.any (fun tag => strContains tag.toLower lowerCaseQuery) ||
      strContains item.size.toLower lowerCaseQuery ||
      item.heroes.any (fun hero => strContains hero.toLower lowerCaseQuery))

/-- An item with only the fields that the filter engine and the examples in
the specification use; all other fields empty.  Used to build the
specification's example collections. -/
def plainItem (name : String) (tags : List String) (size : String) (heroes : List String) :
    BazaarItem :=
  { id := name, name := name, startingTier := "Bronze",
    tiers := ⟨⟨[]⟩, ⟨[]⟩, ⟨[]⟩, ⟨[]⟩, ⟨[]⟩⟩,
    tags := tags, hiddenTags := [], size := size, heroes := heroes,
    enchantments := [], unifiedTooltips := [], remarks := [], packId := "",
    combatEncounters := [] }

/-- The specification's two-item example collection for the filter engine. -/
def exampleItems : List BazaarItem :=
  [plainItem "Shovel" ["Weapon"] "Medium" ["Common"],
   plainItem "Chum" ["Aquatic"] "Small" ["Vanessa"]]

/-- The specification's seven-item example collection for pagination:
items named `"A"` through `"G"`. -/
def letterItems : List BazaarItem :=
  ["A", "B", "C", "D", "E", "F", "G"].map (fun n => plainItem n [] "Small" [])

/-- The criteria with empty query and empty selections: no filter active. -/
def emptyCriteria : FilterCriteria :=
  ⟨"", [], [], []⟩

/-! ## Helper lemmas -/

theorem strContains_iff {s pat : String} :
    strContains s pat = true ↔ pat.data <:+: s.data := by
  simp [strContains]

theorem mem_filterIf {c : Prop} [Decidable c] {l : List BazaarItem}
    {p : BazaarItem → Bool} {a : BazaarItem} :
    a ∈ (if c then l.filter p else l) ↔ a ∈ l ∧ (c → p a = true) := by
  split
  · rw [List.mem_filter]
    tauto
  · tauto

theorem sublist_filterIf (c : Prop) [Decidable c] (l : List BazaarItem)
    (p : BazaarItem → Bool) :
    (if c then l.filter p else l).Sublist l := by
  split
  · exact List.filter_sublist l
  · exact List.Sublist.refl l

theorem ceil_natCast_div_intCast (n : Nat) (k : Int) (hk : 0 < k) :
    ⌈(n : ℚ) / (k : ℚ)⌉ = -(-(n : Int) / k) := by
  have h1 : ⌈(n : ℚ) / (k : ℚ)⌉ = -⌊-((n : ℚ) / (k : ℚ))⌋ := by
    rw [Int.floor_neg]
    ring
  have h3 : ((k.toNat : Nat) : ℚ) = (k : ℚ) := by
    exact_mod_cast congrArg (fun z : Int => (z : ℚ)) (Int.toNat_of_nonneg hk.le)
  have h2 : -((n : ℚ) / (k : ℚ)) = ((-(n : Int) : Int) : ℚ) / ((k.toNat : Nat) : ℚ) := by
    rw [h3]
    push_cast
    ring
  rw [h1, h2, Rat.floor_intCast_div_natCast, Int.toNat_of_nonneg hk.le]

/-! ## C5: the filter engine returns an order-preserving subsequence -/

/-- **C5**: for every item collection and every criteria, the filter
engine's output is a subsequence of the input preserving the original
relative order (so every output item occurs in the input, and if the input
has no duplicates neither does the output). -/
theorem applyFilters_sublist_spec :
    ∀ (items : List BazaarItem) (c : FilterCriteria),
      (applyFilters items c).Sublist items ∧
      (items.Nodup → (applyFilters items c).Nodup) := by
  intro items c
  have h : (applyFilters items c).Sublist items := by
    simp only [applyFilters]
    exact ((sublist_filterIf _ _ _).trans
      ((sublist_filterIf _ _ _).trans
        ((sublist_filterIf _ _ _).trans (sublist_filterIf _ _ _))))
  exact ⟨h, fun hn => hn.sublist h⟩

/-! ## C8: empty criteria are the identity filter -/

/-- **C8**: applying the filter engine with the empty criteria (empty query,
empty tag/size/hero selections) returns the collection unchanged. -/
theorem applyFilters_empty_criteria_id :
    ∀ items : List BazaarItem, applyFilters items emptyCriteria = items := by
  intro items
  simp [applyFilters, emptyCriteria]

/-! ## C9: the two fetch-error policies -/

/-- **C9**: `fetchItems` obeys exactly one of the two variant error
policies.  The fallback variant never fails: it returns the envelope's
`data` on success and the built-in `mockItems` sample collection on a
non-ok response or a network failure.  The non-fallback variant returns
`data` on success and fails with a generic error wrapping the upstream
status/message on either failure, succeeding exactly on successful
responses. -/
theorem fetchItems_variant_policies :
    (∀ r : ApiResponse,
      fetchItems (.success r) = r.data ∧ fetchItemsStrict (.success r) = .ok r.data) ∧
    (∀ (status : Nat) (body : String),
      fetchItems (.httpError status body) = mockItems ∧
      fetchItemsStrict (.httpError status body) =
        .error ("Error fetching API data: " ++ ("API error: " ++ toString status))) ∧
    (∀ message : String,
      fetchItems (.networkFailure message) = mockItems ∧
      fetchItemsStrict (.networkFailure message) =
        .error ("Error fetching API data: " ++ message)) ∧
    (∀ o : FetchOutcome, (fetchItemsStrict o).isOk = true ↔ ∃ r, o = .success r) := by
  refine ⟨fun r => ⟨rfl, rfl⟩, fun s b => ⟨rfl, rfl⟩, fun m => ⟨rfl, rfl⟩, fun o => ?_⟩
  cases o <;> simp [fetchItemsStrict, Except.isOk, Except.toBool]

end BazaarApp

namespace BazaarApp

/-! ## C2: total page count -/

/-- **C2**: for every item collection (including the empty one), every
integer page and every positive page size, the pagination deriver reports
`totalPages = max(1, ceil(len(items) / pageSize))`; in particular an empty
collection reports `totalPages = 1`. -/
theorem paginationData_totalPages_spec :
    ∀ (items : List BazaarItem) (page pageSize : Int), 0 < pageSize →
      (paginationData items page pageSize).totalPages
          = max 1 ⌈(items.length : ℚ) / (pageSize : ℚ)⌉ ∧
      (items = [] → (paginationData items page pageSize).totalPages = 1) := by
  intro items page ps hps
  refine ⟨rfl, fun h => ?_⟩
  subst h
  simp [paginationData]

theorem paginationData_totalPages_spec_witness :
    (0 : Int) < 3 ∧
      ((paginationData letterItems 2 3).totalPages
          = max 1 ⌈(letterItems.length : ℚ) / ((3 : Int) : ℚ)⌉ ∧
       (letterItems = [] → (paginationData letterItems 2 3).totalPages = 1)) :=
  ⟨by decide, paginationData_totalPages_spec letterItems 2 3 (by decide)⟩

/-! ## C3: the used page is the clamped page -/

/-- **C3**: for every filtered collection, every positive page size and
every requested page — however far out of range — the page actually used
equals `clamp(page, 1, totalPages)` and therefore always lies in
`[1, totalPages]`. -/
theorem paginationData_validPage_clamped :
    ∀ (items : List BazaarItem) (page pageSize : Int), 0 < pageSize →
      (paginationData items page pageSize).validPage
          = max 1 (min page (paginationData items page pageSize).totalPages) ∧
      1 ≤ (paginationData items page pageSize).validPage ∧
      (paginationData items page pageSize).validPage
          ≤ (paginationData items page pageSize).totalPages := by
  intro items page ps hps
  refine ⟨rfl, ?_, ?_⟩
  · exact le_max_left _ _
  · have h1 : (1 : Int) ≤ (paginationData items page ps).totalPages := le_max_left _ _
    show max 1 (min page ((paginationData items page ps).totalPages)) ≤ _
    omega

theorem paginationData_validPage_clamped_witness :
    (0 : Int) < 3 ∧
      ((paginationData letterItems (-5) 3).validPage
          = max 1 (min (-5) (paginationData letterItems (-5) 3).totalPages) ∧
       1 ≤ (paginationData letterItems (-5) 3).validPage ∧
       (paginationData letterItems (-5) 3).validPage
          ≤ (paginationData letterItems (-5) 3).totalPages) :=
  ⟨by decide, paginationData_validPage_clamped letterItems (-5) 3 (by decide)⟩

end BazaarApp

namespace BazaarApp

/-! ## C1: membership characterization of the filter engine -/

theorem contains_iff_mem {l : List String} {a : String} :
    l.contains a = true ↔ a ∈ l := by
  simp

theorem matchesSearch_iff {query : String} {a : BazaarItem} :
    matchesSearch query a = true ↔
      query.data <:+: a.name.toLower.data ∨
      (∃ t ∈ a.tags, query.data <:+: t.toLower.data) ∨
      (∃ h ∈ a.heroes, query.data <:+: h.toLower.data) := by
  simp [matchesSearch, strContains, or_assoc]

/-- **C1**: an item of the collection appears in the filter engine's output
iff every active predicate holds for it: the lower-cased query (when
non-empty) is a substring of the lower-cased name or of some lower-cased
visible tag or hero name; the visible tags meet the selected tag set (when
non-empty); the size is a member of the selected size set (when non-empty);
the hero list meets the selected hero set (when non-empty).  Over the two
example items, criteria with empty query and selected tags `["Aquatic"]`
return only `"Chum"`. -/
theorem applyFilters_mem_iff_spec :
    (∀ (items : List BazaarItem) (c : FilterCriteria) (a : BazaarItem), a ∈ items →
      (a ∈ applyFilters items c ↔
        (c.searchQuery ≠ "" →
          c.searchQuery.toLower.data <:+: a.name.toLower.data ∨
          (∃ t ∈ a.tags, c.searchQuery.toLower.data <:+: t.toLower.data) ∨
          (∃ h ∈ a.heroes, c.searchQuery.toLower.data <:+: h.toLower.data)) ∧
        (c.selectedTags ≠ [] → ∃ t ∈ c.selectedTags, t ∈ a.tags) ∧
        (c.selectedSizes ≠ [] → a.size ∈ c.selectedSizes) ∧
        (c.selectedHeroes ≠ [] → ∃ h ∈ c.selectedHeroes, h ∈ a.heroes))) ∧
    applyFilters exampleItems ⟨"", ["Aquatic"], [], []⟩
      = [plainItem "Chum" ["Aquatic"] "Small" ["Vanessa"]] := by
  refine ⟨?_, by decide⟩
  intro items c a ha
  simp only [applyFilters]
  rw [mem_filterIf, mem_filterIf, mem_filterIf, mem_filterIf]
  simp only [matchesSearch_iff, gt_iff_lt, List.length_pos, List.any_eq_true,
    contains_iff_mem, decide_eq_true_eq]
  tauto

theorem applyFilters_mem_iff_spec_witness :
    (plainItem "Chum" ["Aquatic"] "Small" ["Vanessa"] ∈ exampleItems) ∧
      (plainItem "Chum" ["Aquatic"] "Small" ["Vanessa"]
          ∈ applyFilters exampleItems ⟨"", ["Aquatic"], [], []⟩ ↔
        ((FilterCriteria.mk "" ["Aquatic"] [] []).searchQuery ≠ "" →
          (FilterCriteria.mk "" ["Aquatic"] [] []).searchQuery.toLower.data <:+:
            (plainItem "Chum" ["Aquatic"] "Small" ["Vanessa"]).name.toLower.data ∨
          (∃ t ∈ (plainItem "Chum" ["Aquatic"] "Small" ["Vanessa"]).tags,
            (FilterCriteria.mk "" ["Aquatic"] [] []).searchQuery.toLower.data <:+:
              t.toLower.data) ∨
          (∃ h ∈ (plainItem "Chum" ["Aquatic"] "Small" ["Vanessa"]).heroes,
            (FilterCriteria.mk "" ["Aquatic"] [] []).searchQuery.toLower.data <:+:
              h.toLower.data)) ∧
        ((FilterCriteria.mk "" ["Aquatic"] [] []).selectedTags ≠ [] →
          ∃ t ∈ (FilterCriteria.mk "" ["Aquatic"] [] []).selectedTags,
            t ∈ (plainItem "Chum" ["Aquatic"] "Small" ["Vanessa"]).tags) ∧
        ((FilterCriteria.mk "" ["Aquatic"] [] []).selectedSizes ≠ [] →
          (plainItem "Chum" ["Aquatic"] "Small" ["Vanessa"]).size
            ∈ (FilterCriteria.mk "" ["Aquatic"] [] []).selectedSizes) ∧
        ((FilterCriteria.mk "" ["Aquatic"] [] []).selectedHeroes ≠ [] →
          ∃ h ∈ (FilterCriteria.mk "" ["Aquatic"] [] []).selectedHeroes,
            h ∈ (plainItem "Chum" ["Aquatic"] "Small" ["Vanessa"]).heroes)) :=
  ⟨by decide,
    applyFilters_mem_iff_spec.1 exampleItems ⟨"", ["Aquatic"], [], []⟩
      (plainItem "Chum" ["Aquatic"] "Small" ["Vanessa"]) (by decide)⟩

end BazaarApp

namespace BazaarApp

/-! ## C7: the option-derivation helpers -/

theorem setDedup_foldl_mem (l : List String) :
    ∀ (acc : List String) (a : String),
      (a ∈ l.foldl (fun acc a => if a ∈ acc then acc else acc ++ [a]) acc ↔
        a ∈ acc ∨ a ∈ l) := by
  induction l with
  | nil => simp
  | cons b l ih =>
      intro acc a
      rw [List.foldl_cons]
      by_cases hb : b ∈ acc
      · rw [if_pos hb, ih]
        constructor
        · rintro (h | h)
          · exact Or.inl h
          · exact Or.inr (List.mem_cons_of_mem _ h)
        · rintro (h | h)
          · exact Or.inl h
          · rcases List.mem_cons.mp h with rfl | h2
            · exact Or.inl hb
            · exact Or.inr h2
      · rw [if_neg hb, ih]
        simp only [List.mem_append, List.mem_cons, List.mem_singleton]
        tauto

theorem setDedup_foldl_nodup (l : List String) :
    ∀ acc : List String, acc.Nodup →
      (l.foldl (fun acc a => if a ∈ acc then acc else acc ++ [a]) acc).Nodup := by
  induction l with
  | nil => exact fun acc hacc => hacc
  | cons b l ih =>
      intro acc hacc
      rw [List.foldl_cons]
      by_cases hb : b ∈ acc
      · simpa [hb] using ih acc hacc
      · simp only [hb, if_neg]
        refine ih _ ?_
        simp [List.nodup_append, hacc, hb]

theorem setDedup_mem {l : List String} {a : String} : a ∈ setDedup l ↔ a ∈ l := by
  rw [setDedup, setDedup_foldl_mem]
  simp

theorem setDedup_nodup (l : List String) : (setDedup l).Nodup :=
  setDedup_foldl_nodup l [] List.nodup_nil

theorem sortStrings_mem {l : List String} {a : String} : a ∈ sortStrings l ↔ a ∈ l :=
  (List.mergeSort_perm l _).mem_iff

theorem sortStrings_nodup {l : List String} (h : l.Nodup) : (sortStrings l).Nodup :=
  ((List.mergeSort_perm l _).nodup_iff).mpr h

theorem sortStrings_sorted (l : List String) : (sortStrings l).Sorted (· ≤ ·) :=
  List.sorted_mergeSort' l

/-- **C7**: each of the three option-derivation helpers returns every value
appearing in the collection for its dimension (and nothing else), with
duplicates removed, sorted ascending in lexicographic order. -/
theorem unique_options_spec :
    ∀ items : List BazaarItem,
      ((uniqueTags items).Nodup ∧
        (∀ t, t ∈ uniqueTags items ↔ ∃ a ∈ items, t ∈ a.tags) ∧
        (uniqueTags items).Sorted (· ≤ ·)) ∧
      ((uniqueSizes items).Nodup ∧
        (∀ s, s ∈ uniqueSizes items ↔ ∃ a ∈ items, a.size = s) ∧
        (uniqueSizes items).Sorted (· ≤ ·)) ∧
      ((uniqueHeroes items).Nodup ∧
        (∀ hero, hero ∈ uniqueHeroes items ↔ ∃ a ∈ items, hero ∈ a.heroes) ∧
        (uniqueHeroes items).Sorted (· ≤ ·)) := by
  intro items
  refine ⟨⟨?_, ?_, ?_⟩, ⟨?_, ?_, ?_⟩, ⟨?_, ?_, ?_⟩⟩
  · exact sortStrings_nodup (setDedup_nodup _)
  · intro t
    rw [uniqueTags, sortStrings_mem, setDedup_mem]
    simp
  · exact sortStrings_sorted _
  · exact sortStrings_nodup (setDedup_nodup _)
  · intro s
    rw [uniqueSizes, sortStrings_mem, setDedup_mem]
    simp [eq_comm]
  · exact sortStrings_sorted _
  · exact sortStrings_nodup (setDedup_nodup _)
  · intro hero
    rw [uniqueHeroes, sortStrings_mem, setDedup_mem]
    simp
  · exact sortStrings_sorted _

end BazaarApp

namespace BazaarApp

/-! ## C10: the secondary search API -/

/-- **C10**: for the empty query `searchItems` returns the fetched
collection unchanged; for a non-empty query it returns exactly the fetched
items whose lower-cased name, some lower-cased visible tag, lower-cased
size, or some lower-cased hero name contains the lower-cased query — one
more field (the size) than the filter engine's free-text predicate
`matchesSearch`. -/
theorem searchItems_query_spec :
    ∀ (o : FetchOutcome) (q : String),
      (q = "" → searchItems o q = fetchItems o) ∧
      (q ≠ "" → ∀ a : BazaarItem,
        (a ∈ searchItems o q ↔
          a ∈ fetchItems o ∧
            (q.toLower.data <:+: a.name.toLower.data ∨
             (∃ t ∈ a.tags, q.toLower.data <:+: t.toLower.data) ∨
             q.toLower.data <:+: a.size.toLower.data ∨
             (∃ h ∈ a.heroes, q.toLower.data <:+: h.toLower.data)))) ∧
      (q ≠ "" → searchItems o q =
        (fetchItems o).filter
          (fun item => matchesSearch q.toLower item || strContains item.size.toLower q.toLower)) := by
  intro o q
  refine ⟨fun h => by simp [searchItems, h], fun hq a => ?_, fun hq => ?_⟩
  · simp only [searchItems, if_neg hq]
    rw [List.mem_filter]
    simp [strContains, or_assoc]
  · simp only [searchItems, if_neg hq]
    refine List.filter_congr fun a _ => ?_
    simp only [matchesSearch]
    cases strContains a.name.toLower q.toLower <;>
      cases a.tags.any (fun tag => strContains tag.toLower q.toLower) <;>
      cases strContains a.size.toLower q.toLower <;>
      cases a.heroes.any (fun hero => strContains hero.toLower q.toLower) <;> rfl

theorem searchItems_query_spec_witness :
    ("chu" : String) ≠ "" ∧
      searchItems (.httpError 500 "boom") "chu" =
        (fetchItems (.httpError 500 "boom")).filter
          (fun item =>
            matchesSearch ("chu" : String).toLower item ||
            strContains item.size.toLower ("chu" : String).toLower) :=
  ⟨by decide, (searchItems_query_spec (.httpError 500 "boom") "chu").2.2 (by decide)⟩

end BazaarApp

namespace BazaarApp

/-! ## C6: the page-window helper -/

theorem intRange_length (s e : Int) : (intRange s e).length = (e + 1 - s).toNat := by
  rw [intRange, List.length_map, List.length_range]

theorem mem_intRange {x s e : Int} : x ∈ intRange s e ↔ s ≤ x ∧ x ≤ e := by
  simp only [intRange, List.mem_map, List.mem_range]
  constructor
  · rintro ⟨i, hi, rfl⟩
    omega
  · rintro ⟨h1, h2⟩
    exact ⟨(x - s).toNat, by omega, by omega⟩

/-- **C6**: for every `totalPages ≥ 1` and every `currentPage` in
`[1, totalPages]`, the page-window helper returns a contiguous ascending
run of page numbers lying entirely within `[1, totalPages]`, containing
exactly `min 5 totalPages` numbers, centered on `currentPage` whenever at
least two pages exist on each side of it. -/
theorem getPageNumbers_window_spec :
    ∀ (currentPage totalPages : Int),
      1 ≤ totalPages → 1 ≤ currentPage → currentPage ≤ totalPages →
      (∀ x ∈ getPageNumbers currentPage totalPages, 1 ≤ x ∧ x ≤ totalPages) ∧
      (getPageNumbers currentPage totalPages).length = (min 5 totalPages).toNat ∧
      (∃ s, getPageNumbers currentPage totalPages
              = intRange s (s + (min 5 totalPages - 1))) ∧
      (1 ≤ currentPage - 2 → currentPage + 2 ≤ totalPages →
        getPageNumbers currentPage totalPages
          = intRange (currentPage - 2) (currentPage + 2)) := by
  intro cp tp h1 h2 h3
  have h52 : (5 : Int) / 2 = 2 := by decide
  simp only [getPageNumbers, h52]
  set a := max 1 (cp - 2) with ha
  set e := min tp (a + 5 - 1) with he
  by_cases hc : e - a + 1 < 5
  · rw [if_pos hc]
    refine ⟨?_, ?_, ⟨max 1 (e - 5 + 1), ?_⟩, ?_⟩
    · intro x hx
      rw [mem_intRange] at hx
      omega
    · rw [intRange_length]
      omega
    · congr 1
      omega
    · intro hcl hcr
      exfalso
      omega
  · rw [if_neg hc]
    refine ⟨?_, ?_, ⟨a, ?_⟩, ?_⟩
    · intro x hx
      rw [mem_intRange] at hx
      omega
    · rw [intRange_length]
      omega
    · congr 1
      omega
    · intro hcl hcr
      congr 1 <;> omega

theorem getPageNumbers_window_spec_witness :
    ((1 : Int) ≤ 10 ∧ (1 : Int) ≤ 7 ∧ (7 : Int) ≤ 10) ∧
      ((∀ x ∈ getPageNumbers 7 10, 1 ≤ x ∧ x ≤ 10) ∧
       (getPageNumbers 7 10).length = (min 5 (10 : Int)).toNat ∧
       (∃ s, getPageNumbers 7 10 = intRange s (s + (min 5 (10 : Int) - 1))) ∧
       (1 ≤ (7 : Int) - 2 → (7 : Int) + 2 ≤ 10 →
         getPageNumbers 7 10 = intRange (7 - 2) (7 + 2))) :=
  ⟨⟨by decide, by decide, by decide⟩,
    getPageNumbers_window_spec 7 10 (by decide) (by decide) (by decide)⟩

end BazaarApp

namespace BazaarApp

/-! ## C4: the visible page is an exact slice, and pages tile the collection -/

theorem take_min_sub (l : List BazaarItem) (s k : Nat) :
    (l.drop s).take (min k (l.length - s)) = (l.drop s).take k := by
  rw [List.take_eq_take, List.length_drop]
  omega

theorem join_chunks (k : Nat) :
    ∀ (n : Nat) (l : List BazaarItem), l.length ≤ n * k →
      ((List.range n).map (fun i => (l.drop (i * k)).take k)).flatten = l := by
  intro n
  induction n with
  | zero =>
      intro l h
      simp only [Nat.zero_mul, Nat.le_zero] at h
      simp [List.eq_nil_of_length_eq_zero h]
  | succ n ih =>
      intro l h
      rw [Nat.succ_mul] at h
      rw [List.range_succ_eq_map, List.map_cons, List.map_map, List.flatten_cons]
      have he : ((fun i => (l.drop (i * k)).take k) ∘ Nat.succ)
          = fun i => ((l.drop k).drop (i * k)).take k := by
        funext i
        simp only [Function.comp_apply, List.drop_drop]
        rw [Nat.succ_mul, Nat.add_comm]
      rw [he, ih (l.drop k) (by rw [List.length_drop]; omega)]
      rw [Nat.zero_mul, List.drop_zero, List.take_append_drop]

theorem visible_slice (items : List BazaarItem) (page ps : Int) (hps : 0 < ps) :
    (paginationData items page ps).visibleItems
      = (items.drop
          (((paginationData items page ps).validPage - 1) * ps).toNat).take ps.toNat := by
  simp only [paginationData, jsSlice]
  set v := max 1 (min page (max 1 ⌈(items.length : ℚ) / (ps : ℚ)⌉)) with hv
  have hv1 : 1 ≤ v := le_max_left _ _
  generalize hN : (v - 1) * ps = N
  have hN0 : 0 ≤ N := hN ▸ mul_nonneg (by omega) hps.le
  have harith : ((min (N + ps) (items.length : Int)) - N).toNat
      = min ps.toNat (items.length - N.toNat) := by
    omega
  rw [harith, take_min_sub]

/-- **C4**: for every collection and positive page size, the visible page is
the contiguous slice of the collection starting at index
`(validPage - 1) * pageSize`, of length at most `pageSize`, never reading
past the end; concatenating the visible slices for pages `1..totalPages`
reconstructs the collection exactly.  For the 7 items `"A".."G"` with page
size 3 there are 3 total pages, page 1 shows `[A,B,C]`, page 3 shows `[G]`,
and requested page 10 is used as page 3. -/
theorem paginationData_slices_spec :
    ∀ (items : List BazaarItem) (pageSize : Int), 0 < pageSize →
      (∀ page : Int,
        (paginationData items page pageSize).visibleItems
          = (items.drop
              (((paginationData items page pageSize).validPage - 1) * pageSize).toNat).take
              pageSize.toNat ∧
        (paginationData items page pageSize).visibleItems.length ≤ pageSize.toNat) ∧
      ((List.range (paginationData items 1 pageSize).totalPages.toNat).map
          (fun i : Nat => (paginationData items ((i : Int) + 1) pageSize).visibleItems)).flatten
        = items ∧
      ((paginationData letterItems 1 3).totalPages = 3 ∧
       (paginationData letterItems 1 3).visibleItems
          = [plainItem "A" [] "Small" [], plainItem "B" [] "Small" [],
             plainItem "C" [] "Small" []] ∧
       (paginationData letterItems 3 3).visibleItems = [plainItem "G" [] "Small" []] ∧
       (paginationData letterItems 10 3).validPage = 3) := by
  intro items ps hps
  have hslice := fun page => visible_slice items page ps hps
  refine ⟨fun page => ⟨hslice page, ?_⟩, ?_, ?_, ?_, ?_, ?_⟩
  · rw [hslice page]
    exact List.length_take_le _ _
  · -- pages 1..totalPages tile the collection
    have hT1 : (1 : Int) ≤ (paginationData items 1 ps).totalPages := le_max_left _ _
    have hpage : ∀ i : Nat, i < (paginationData items 1 ps).totalPages.toNat →
        (paginationData items ((i : Int) + 1) ps).visibleItems
          = (items.drop (i * ps.toNat)).take ps.toNat := by
      intro i hi
      have hvp : (paginationData items ((i : Int) + 1) ps).validPage = (i : Int) + 1 := by
        show max 1 (min ((i : Int) + 1) (max 1 ⌈(items.length : ℚ) / (ps : ℚ)⌉)) = _
        have : ((i : Int) + 1) ≤ (paginationData items 1 ps).totalPages := by omega
        have h2 : (paginationData items 1 ps).totalPages
            = max 1 ⌈(items.length : ℚ) / (ps : ℚ)⌉ := rfl
        omega
      rw [hslice ((i : Int) + 1), hvp]
      have h3 : (((i : Int) + 1 - 1) * ps).toNat = i * ps.toNat := by
        have h4 : ((i : Int) + 1 - 1) * ps = ((i * ps.toNat : Nat) : Int) := by
          push_cast [Int.toNat_of_nonneg hps.le]
          ring
        rw [h4, Int.toNat_natCast]
      rw [h3]
    rw [List.map_congr_left fun i hi => hpage i (List.mem_range.mp hi)]
    have hTdef : (paginationData items 1 ps).totalPages
        = max 1 ⌈(items.length : ℚ) / (ps : ℚ)⌉ := rfl
    rw [hTdef]
    refine join_chunks ps.toNat _ items ?_
    -- the collection fits into totalPages pages of size pageSize
    set T : Int := max 1 ⌈(items.length : ℚ) / (ps : ℚ)⌉ with hTs
    have hT0 : (1 : Int) ≤ T := le_max_left _ _
    have hceil : ((items.length : ℚ)) / (ps : ℚ) ≤ (T : ℚ) := by
      refine le_trans (Int.le_ceil _) ?_
      rw [hTs]
      exact_mod_cast le_max_right 1 ⌈(items.length : ℚ) / (ps : ℚ)⌉
    have hpsQ : (0 : ℚ) < (ps : ℚ) := by exact_mod_cast hps
    have hq : (items.length : ℚ) ≤ (T : ℚ) * (ps : ℚ) := (div_le_iff₀ hpsQ).mp hceil
    have hI : (items.length : Int) ≤ T * ps := by exact_mod_cast hq
    have hTk : ((T.toNat * ps.toNat : Nat) : Int) = T * ps := by
      push_cast [Int.toNat_of_nonneg (by omega : (0:Int) ≤ T),
        Int.toNat_of_nonneg hps.le]
      ring
    have h5 := hI.trans_eq hTk.symm
    exact_mod_cast h5
  · rw [show (paginationData letterItems 1 3).totalPages
        = max 1 (-(-(letterItems.length : Int) / 3)) from by
      show max 1 ⌈(letterItems.length : ℚ) / ((3 : Int) : ℚ)⌉ = _
      rw [ceil_natCast_div_intCast letterItems.length 3 (by decide)]]
    decide
  · rw [visible_slice letterItems 1 3 (by decide)]
    rw [show (paginationData letterItems 1 3).validPage = 1 from by
      show max 1 (min 1 (max 1 ⌈(letterItems.length : ℚ) / ((3 : Int) : ℚ)⌉)) = 1
      rw [ceil_natCast_div_intCast letterItems.length 3 (by decide)]
      decide]
    decide
  · rw [visible_slice letterItems 3 3 (by decide)]
    rw [show (paginationData letterItems 3 3).validPage = 3 from by
      show max 1 (min 3 (max 1 ⌈(letterItems.length : ℚ) / ((3 : Int) : ℚ)⌉)) = 3
      rw [ceil_natCast_div_intCast letterItems.length 3 (by decide)]
      decide]
    decide
  · show max 1 (min 10 (max 1 ⌈(letterItems.length : ℚ) / ((3 : Int) : ℚ)⌉)) = 3
    rw [ceil_natCast_div_intCast letterItems.length 3 (by decide)]
    decide

theorem paginationData_slices_spec_witness :
    (0 : Int) < 3 ∧
      ((paginationData letterItems 1 3).totalPages = 3 ∧
       (paginationData letterItems 1 3).visibleItems
          = [plainItem "A" [] "Small" [], plainItem "B" [] "Small" [],
             plainItem "C" [] "Small" []] ∧
       (paginationData letterItems 3 3).visibleItems = [plainItem "G" [] "Small" []] ∧
       (paginationData letterItems 10 3).validPage = 3) :=
  ⟨by decide, (paginationData_slices_spec letterItems 3 (by decide)).2.2⟩

end BazaarApp

namespace BazaarApp

theorem applyFilters_sublist_spec_witness :
    exampleItems.Nodup ∧
      (applyFilters exampleItems ⟨"sho", [], [], []⟩).Sublist exampleItems ∧
      (applyFilters exampleItems ⟨"sho", [], [], []⟩).Nodup :=
  ⟨by decide, (applyFilters_sublist_spec exampleItems ⟨"sho", [], [], []⟩).1,
    (applyFilters_sublist_spec exampleItems ⟨"sho", [], [], []⟩).2 (by decide)⟩

end BazaarApp
